import Mathlib

/-!
Verification development for the `a11y-ml-experiments` repository
(notebook `2022-03-gpt-trends/Notebook.ipynb` and its Markdown export).

The repository is exploratory glue code: each notebook cell builds a prompt
string (a literal in the source), issues one `openai.Completion.create` call
with fixed generation parameters, and prints `response["choices"][0]["text"]`.
We embed the data model (completion requests and responses), the per-cell
control flow (one outbound request, extract the first candidate's text), the
startup credential read, and the prompt literals, and prove or refute the
frozen claims about them.
-/

namespace GptTrends

/-- One candidate completion, mirroring the JSON objects in the response's
`choices` array as captured in the notebook transcript:
`{finish_reason, index, logprobs, text}`.  `logprobs` is `null` in every
captured response (diagnostics were never requested), modelled as an
`Option` payload. -/
structure Choice where
  finish_reason : String
  index : Nat
  logprobs : Option String
  text : String
deriving Repr, DecidableEq

/-- The completion endpoint's reply, mirroring the JSON object printed by the
smoke-test cell: `{choices, created, id, model, object}`. -/
structure CompletionResponse where
  choices : List Choice
  created : Nat
  id : String
  model : String
  object : String
deriving Repr, DecidableEq

/-- A completion request, mirroring the keyword arguments of every
`openai.Completion.create` call in the notebook:
`engine`, `prompt`, `temperature`, `max_tokens`.  The notebook always passes
the integer literal `0` for `temperature`, so `Nat` is faithful here. -/
structure CompletionRequest where
  engine : String
  prompt : String
  temperature : Nat
  max_tokens : Nat
deriving Repr, DecidableEq

/-- Errors the extraction step can raise.  `indexError` mirrors the Python
`IndexError` that `response["choices"][0]` raises on an empty list.
`emptyResponse` is the distinct application-level condition named by the
specification's error taxonomy; the source code never produces it (it is
declared here so that statements about it can be made at all). -/
inductive ExtractError where
  | indexError (msg : String)
  | emptyResponse
deriving Repr, DecidableEq

/-- The extraction step of every cell, `response["choices"][0]["text"]`:
Python list subscript `[0]` raises `IndexError("list index out of range")`
on an empty list and otherwise yields the first element, whose `text` key is
then read (always present in the structured model). -/
def extractFirstText (r : CompletionResponse) : Except ExtractError String :=
  match r.choices with
  | [] => .error (.indexError "list index out of range")
  | c :: _ => .ok c.text

/-- The stub response of the smoke-test transcript:
`{choices:[{finish_reason:"length", index:0, logprobs:null,
text:"\n\nThis is a test"}], created:1648109397,
id:"cmpl-4pCpZBRGMXui3G1jJKJRo62DsOK2y", model:"text-davinci:002",
object:"text_completion"}`. -/
def stubResponse : CompletionResponse :=
  { choices := [{ finish_reason := "length", index := 0, logprobs := none,
                  text := "\n\nThis is a test" }],
    created := 1648109397,
    id := "cmpl-4pCpZBRGMXui3G1jJKJRo62DsOK2y",
    model := "text-davinci:002",
    object := "text_completion" }

/-- The process environment, as a key/value association list; duplicate keys
never arise in the scenarios considered. -/
def Env := List (String × String)

/-- Python's `os.getenv(key)`: the value bound to `key`, or `None` when the
variable is absent (no exception is raised). -/
def getenv (env : Env) (key : String) : Option String :=
  List.lookup key env

/-- A fatal configuration error at startup, as named by the specification's
error taxonomy.  The source's startup cell never produces it (declared so
that statements about it can be made at all). -/
inductive ConfigError where
  | missingCredential
deriving Repr, DecidableEq

/-- The module-level client state: `openai.api_key`, which Python lets be a
string or `None`. -/
structure ClientState where
  api_key : Option String
deriving Repr, DecidableEq

/-- The startup cell, `openai.api_key = os.getenv("OPENAI_API_KEY")`:
one environment read, whose result (possibly `None`) is assigned to the
module-level key without any check.  The second component records the list
of environment keys read, in order; the `Except` result type makes a fatal
startup failure representable, and the definition shows the source never
takes that path. -/
def startup (env : Env) : Except ConfigError ClientState × List String :=
  (.ok { api_key := getenv env "OPENAI_API_KEY" }, ["OPENAI_API_KEY"])

/-- Failure conditions of the outbound call named by the specification:
network/transport failure, rejected credential, provider-side rate
limiting.  The notebook installs no handler for any of them. -/
inductive ApiError where
  | transportError (msg : String)
  | authenticationError (msg : String)
  | rateLimitError (msg : String)
deriving Repr, DecidableEq

/-- The external completion endpoint, abstracted as a function from a request
to either a failure or a structured response (the notebook's single blocking
`openai.Completion.create` call). -/
def Transport := CompletionRequest → Except ApiError CompletionResponse

/-- Anything a cell's single-shot operation can end with: an API failure
propagated from the call, or an extraction failure from subscripting the
response. -/
inductive RunError where
  | api (e : ApiError)
  | extract (e : ExtractError)
deriving Repr, DecidableEq

/-- One notebook cell body:
`response = openai.Completion.create(...)` followed by
`print(response["choices"][0]["text"])`.  Issues the request once, and on
success extracts the first candidate's text.  There is no `try`/`except`
around either step in the source, so both failure kinds propagate unhandled;
the second component records the outbound requests issued, in order. -/
def runCell (t : Transport) (req : CompletionRequest) :
    Except RunError String × List CompletionRequest :=
  match t req with
  | .error e => (.error (.api e), [req])
  | .ok resp =>
    match extractFirstText resp with
    | .error e => (.error (.extract e), [req])
    | .ok s => (.ok s, [req])

/-- Prompt of the smoke-test cell. -/
def smokeTestPrompt : String := "Say this is a test"

/-- Prompt of the zero-example trend cell: the series is inlined into the
instruction sentence itself; there is no example block and no label. -/
def zeroShotTrendPrompt : String :=
  "Summarize the trend of the list of numbers 132, 329, 583, 743, 966, 1123, 1298 in one sentence"

/-- Prompt of the first few-shot cell (two examples, target 99..82). -/
def fewShotPromptA : String :=
  "Summarize the trend of the list of numbers in one sentence\n\nNumbers: 132, 329, 583, 743, 966, 1123, 1298\nTrend: The numbers increase steadily from just over 100 to almost 1300.\n\nNumbers: 300, 323, 293, 313, 341, 301, 329\nTrend: The numbers fluctuate between 293 and 341.\n\nNumbers: 99, 97, 96, 90, 87, 83, 82\nTrend: \n"

/-- Prompt of the second few-shot cell (same two examples, outlier target). -/
def fewShotPromptB : String :=
  "Summarize the trend of the list of numbers in one sentence\n\nNumbers: 132, 329, 583, 743, 966, 1123, 1298\nTrend: The numbers increase steadily from just over 100 to almost 1300.\n\nNumbers: 300, 323, 293, 313, 341, 301, 329\nTrend: The numbers fluctuate between 293 and 341.\n\nNumbers: 55, 54, 57, 5643, 56, 55, 54\nTrend: \n"

/-- Prompt of the third few-shot cell (first example mentions Monday and
Sunday). -/
def fewShotPromptC : String :=
  "Summarize the trend of the list of numbers in one sentence\n\nNumbers: 132, 329, 583, 743, 966, 1123, 1298\nTrend: The numbers increase steadily from just over 100 on Monday to almost 1300 on Sunday.\n\nNumbers: 300, 323, 293, 313, 341, 301, 329\nTrend: The numbers fluctuate between 293 and 341.\n\nNumbers: 55, 54, 57, 5643, 56, 55, 54\nTrend: \n"

/-- Prompt of the fourth few-shot cell (adds the 218-outlier example). -/
def fewShotPromptD : String :=
  "Summarize the trend of the list of numbers in one sentence\n\nNumbers: 132, 329, 583, 743, 966, 1123, 1298\nTrend: The numbers increase steadily from just over 100 on Monday to almost 1300 on Sunday.\n\nNumbers: 300, 323, 293, 313, 341, 301, 329\nTrend: The numbers fluctuate between 293 and 341 all week.\n\nNumbers: 7, 8, 11, 9, 218, 8, 8\nTrend: The numbers fluctuate between 7 and 11 all week, wih one outlier at 218 on Friday.\n\nNumbers: 55, 54, 57, 5643, 56, 55, 54\nTrend: \n"

/-- Prompt of the first day-labeled cell (three examples, target
55, 54, 57, 5643, 56, 55, 54 with day letters). -/
def dayLabeledPromptA : String :=
  "Summarize the trend of the daily list of numbers in one sentence\n\nNumbers: M: 132, T: 329, W: 583, T: 743, F: 966, S: 1123, S: 1298\nTrend: The numbers increase steadily from just over 100 on Monday to almost 1300 on Sunday.\n\nNumbers: M: 300, T: 323, W: 293, T: 313, F: 341, S: 301, S: 329\nTrend: The numbers fluctuate between 293 and 341 all week.\n\nNumbers: M: 7, T: 8, W: 11, T: 9, F: 218, S: 8, S: 8\nTrend: The numbers fluctuate between 7 and 11 all week, wih one outlier at 218 on Friday.\n\nNumbers: M: 55, T: 54, W: 57, T: 5643, F: 56, S: 55, S: 54\nTrend: \n"

/-- Prompt of the second day-labeled cell (two-day dip target). -/
def dayLabeledPromptB : String :=
  "Summarize the trend of the daily list of numbers in one sentence\n\nNumbers: M: 132, T: 329, W: 583, T: 743, F: 966, S: 1123, S: 1298\nTrend: The numbers increase steadily from just over 100 on Monday to almost 1300 on Sunday.\n\nNumbers: M: 300, T: 323, W: 293, T: 313, F: 341, S: 301, S: 329\nTrend: The numbers fluctuate between 293 and 341 all week.\n\nNumbers: M: 7, T: 8, W: 11, T: 9, F: 218, S: 8, S: 8\nTrend: The numbers fluctuate between 7 and 11 all week, wih one outlier at 218 on Friday.\n\nNumbers: M: 37465, T: 52374, W: 39809, T: 30885, F: 44325, S: 230, S: 223\nTrend: \n"

/-- All eight `openai.Completion.create` calls of the notebook, in execution
order, with the keyword arguments each cell passes. -/
def notebookRequests : List CompletionRequest :=
  [ ⟨"text-davinci-002", smokeTestPrompt, 0, 6⟩,
    ⟨"text-davinci-002", zeroShotTrendPrompt, 0, 36⟩,
    ⟨"text-davinci-002", fewShotPromptA, 0, 36⟩,
    ⟨"text-davinci-002", fewShotPromptB, 0, 36⟩,
    ⟨"text-davinci-002", fewShotPromptC, 0, 36⟩,
    ⟨"text-davinci-002", fewShotPromptD, 0, 36⟩,
    ⟨"text-davinci-002", dayLabeledPromptA, 0, 36⟩,
    ⟨"text-davinci-002", dayLabeledPromptB, 0, 36⟩ ]

/-- The six few-shot prompts of the notebook (every prompt built from the
example-block template), in execution order. -/
def fewShotPrompts : List String :=
  [fewShotPromptA, fewShotPromptB, fewShotPromptC, fewShotPromptD,
   dayLabeledPromptA, dayLabeledPromptB]

/-- The two labeling modes of the specification's Prompt Builder: raw
comma-separated numbers, or day-letter-prefixed numbers. -/
inductive LabelingMode where
  | raw
  | dayLetter
deriving Repr, DecidableEq

/-- The positional single-letter day labels M, T, W, T, F, S, S used by the
day-labeled prompts. -/
def dayLetters : List String := ["M", "T", "W", "T", "F", "S", "S"]

/-- An Example Pair of the specification's data model: a numeric series with
its hand-written trend description. -/
structure ExamplePair where
  series : List Nat
  trend : String
deriving Repr, DecidableEq

/-- Modelled from the spec: the Prompt Builder's series rendering — the
repository inlines every rendered series as part of a prompt string literal
and has no rendering function of its own.  Raw mode joins the numbers with
", "; day-letter mode prefixes each number with its positional day letter
and ": ".  Labels are positional only and the template does not validate
that exactly seven values are supplied. -/
def renderSeries (mode : LabelingMode) (nums : List Nat) : String :=
  match mode with
  | .raw => String.intercalate ", " (nums.map toString)
  | .dayLetter =>
    String.intercalate ", "
      ((dayLetters.zip nums).map fun p => p.1 ++ ": " ++ toString p.2)

/-- Modelled from the spec: the Prompt Builder — the repository inlines every
prompt as a string literal and has no builder function of its own.  Renders
the instruction, then each example as a blank-line-separated
"Numbers: ... / Trend: ..." block, then the target series with the empty
continuation point "Trend: " and a final newline.  Validated below against
the notebook's literal prompt strings. -/
def buildPrompt (instruction : String) (mode : LabelingMode)
    (examples : List ExamplePair) (target : List Nat) : String :=
  instruction ++
    String.join (examples.map fun e =>
      "\n\nNumbers: " ++ renderSeries mode e.series ++ "\nTrend: " ++ e.trend) ++
    "\n\nNumbers: " ++ renderSeries mode target ++ "\nTrend: \n"

/-- `pat` occurs as a contiguous substring of the character list `s`
(structural recursion, so the kernel can evaluate it on literals). -/
def listContainsSub : List Char → List Char → Bool
  | [], pat => pat.isEmpty
  | c :: rest, pat => List.isPrefixOf pat (c :: rest) || listContainsSub rest pat

/-- `pat` occurs as a contiguous substring of the string `s`. -/
def strContains (s pat : String) : Bool :=
  listContainsSub s.data pat.data

/-- `post` is a suffix of the string `s` (checked over the character
lists). -/
def strEndsWith (s post : String) : Bool :=
  List.isSuffixOf post.data s.data

/-- The two example pairs of the first two few-shot cells. -/
def rawExamplePairs : List ExamplePair :=
  [ ⟨[132, 329, 583, 743, 966, 1123, 1298],
     "The numbers increase steadily from just over 100 to almost 1300."⟩,
    ⟨[300, 323, 293, 313, 341, 301, 329],
     "The numbers fluctuate between 293 and 341."⟩ ]

/-- The three example pairs of the day-labeled cells. -/
def dayExamplePairs : List ExamplePair :=
  [ ⟨[132, 329, 583, 743, 966, 1123, 1298],
     "The numbers increase steadily from just over 100 on Monday to almost 1300 on Sunday."⟩,
    ⟨[300, 323, 293, 313, 341, 301, 329],
     "The numbers fluctuate between 293 and 341 all week."⟩,
    ⟨[7, 8, 11, 9, 218, 8, 8],
     "The numbers fluctuate between 7 and 11 all week, wih one outlier at 218 on Friday."⟩ ]

end GptTrends

open GptTrends

set_option maxRecDepth 100000 in
/-- The modelled Prompt Builder reproduces the notebook's first few-shot
prompt literal byte for byte. -/
theorem buildPrompt_matches_fewShotPromptA :
    buildPrompt "Summarize the trend of the list of numbers in one sentence"
      LabelingMode.raw rawExamplePairs [99, 97, 96, 90, 87, 83, 82] =
      fewShotPromptA := by decide

set_option maxRecDepth 100000 in
/-- The modelled Prompt Builder reproduces the notebook's first day-labeled
prompt literal byte for byte. -/
theorem buildPrompt_matches_dayLabeledPromptA :
    buildPrompt "Summarize the trend of the daily list of numbers in one sentence"
      LabelingMode.dayLetter dayExamplePairs [55, 54, 57, 5643, 56, 55, 54] =
      dayLabeledPromptA := by decide

/-- Claim C1 (counterexample): the Result Extractor does not trim whitespace.
On the stub response whose first candidate text is "\n\nThis is a test", the
extracted output is the raw text, not "This is a test". -/
theorem c1_counterexample :
    extractFirstText stubResponse ≠ Except.ok "This is a test" ∧
    extractFirstText stubResponse = Except.ok "\n\nThis is a test" := by
  constructor
  · intro h
    exact absurd (Except.ok.inj h) (by decide)
  · rfl

/-- Claim C1 (amended): the Result Extractor returns the first candidate's
text unmodified — no whitespace trimming; for the smoke-test stub response
the extracted output is "\n\nThis is a test". -/
theorem c1_extract_untrimmed :
    extractFirstText stubResponse = Except.ok "\n\nThis is a test" := rfl

/-- Claim C2: for every Completion Response with at least one candidate, the
extracted output is exactly the text field of the candidate at index 0, and
is unaffected by the content of every other candidate. -/
theorem c2_extract_first_candidate_only
    (c : Choice) (rest rest2 : List Choice)
    (created : Nat) (id model object : String) :
    extractFirstText ⟨c :: rest, created, id, model, object⟩ = Except.ok c.text ∧
    extractFirstText ⟨c :: rest, created, id, model, object⟩ =
      extractFirstText ⟨c :: rest2, created, id, model, object⟩ := ⟨rfl, rfl⟩

/-- Claim C3 (counterexample): on a response with zero candidates the code's
extraction fails with a list-index-out-of-range error (Python `IndexError`
from `response["choices"][0]`), not with the distinct EmptyResponse
condition the claim names. -/
theorem c3_counterexample :
    extractFirstText ⟨[], 0, "", "", ""⟩ ≠ Except.error ExtractError.emptyResponse ∧
    extractFirstText ⟨[], 0, "", "", ""⟩ =
      Except.error (ExtractError.indexError "list index out of range") := by
  constructor
  · intro h
    exact absurd (Except.error.inj h) (by decide)
  · rfl

/-- Claim C3 (amended): on every response with an empty candidate list the
extractor fails with a list-index-out-of-range error — an exception rather
than a null, undefined, or silent value — but not with a distinct
EmptyResponse condition, which the code never produces. -/
theorem c3_empty_choices_index_error
    (created : Nat) (id model object : String) :
    extractFirstText ⟨[], created, id, model, object⟩ =
        Except.error (ExtractError.indexError "list index out of range") ∧
    ∀ s : String, extractFirstText ⟨[], created, id, model, object⟩ ≠ Except.ok s := by
  refine ⟨rfl, ?_⟩
  intro s h
  exact Except.noConfusion h

/-- Claim C7 (counterexample): with an empty process environment — the
credential absent — startup completes normally with `api_key = None`; it
does not fail with a fatal configuration error. -/
theorem c7_counterexample :
    (startup ([] : Env)).1 ≠ Except.error ConfigError.missingCredential ∧
    (startup ([] : Env)).1 = Except.ok { api_key := none } := by
  constructor
  · intro h
    exact Except.noConfusion h
  · rfl

/-- Claim C7 (amended): the credential is read from the process environment
exactly once at startup (one `getenv` of "OPENAI_API_KEY"), and startup
always succeeds, silently storing `None` when the variable is absent; no
fatal configuration error is raised at startup, so a missing credential
could only surface on a later per-call basis. -/
theorem c7_credential_read_once_never_fatal (env : Env) :
    (startup env).2 = ["OPENAI_API_KEY"] ∧
    (startup env).1 = Except.ok { api_key := getenv env "OPENAI_API_KEY" } :=
  ⟨rfl, rfl⟩

/-- Claim C8: every single-shot cell issues exactly one outbound completion
request; a transport/authentication/rate-limit failure propagates to the
caller unchanged with no retry and no output, and an empty-candidate
(malformed) response propagates as the extraction error. -/
theorem c8_single_request_propagates (t : Transport) (req : CompletionRequest) :
    (runCell t req).2 = [req] ∧
    (∀ e : ApiError, t req = Except.error e →
        (runCell t req).1 = Except.error (RunError.api e)) ∧
    (∀ resp : CompletionResponse, t req = Except.ok resp → resp.choices = [] →
        (runCell t req).1 =
          Except.error (RunError.extract
            (ExtractError.indexError "list index out of range"))) := by
  refine ⟨?_, ?_, ?_⟩
  · cases h : t req with
    | error e => simp [runCell, h]
    | ok resp =>
      cases h2 : extractFirstText resp with
      | error e2 => simp [runCell, h, h2]
      | ok s => simp [runCell, h, h2]
  · intro e he
    simp [runCell, he]
  · intro resp hresp hchoices
    have h2 : extractFirstText resp =
        Except.error (ExtractError.indexError "list index out of range") := by
      unfold extractFirstText
      rw [hchoices]
    simp [runCell, hresp, h2]

/-- Witness for C8: a transport that refuses the connection yields exactly
the propagated transport error and a single issued request, and a transport
answering with zero candidates yields the propagated extraction error. -/
theorem c8_witness :
    (runCell (fun _ => Except.error (ApiError.transportError "connection refused"))
        ⟨"text-davinci-002", "Say this is a test", 0, 6⟩).1 =
      Except.error (RunError.api (ApiError.transportError "connection refused")) ∧
    (runCell (fun _ => Except.error (ApiError.transportError "connection refused"))
        ⟨"text-davinci-002", "Say this is a test", 0, 6⟩).2 =
      [⟨"text-davinci-002", "Say this is a test", 0, 6⟩] ∧
    (runCell (fun _ => Except.ok ⟨[], 0, "", "", ""⟩)
        ⟨"text-davinci-002", "Say this is a test", 0, 6⟩).1 =
      Except.error (RunError.extract
        (ExtractError.indexError "list index out of range")) :=
  ⟨(c8_single_request_propagates _ _).2.1 _ rfl,
   (c8_single_request_propagates _ _).1,
   (c8_single_request_propagates _ _).2.2 ⟨[], 0, "", "", ""⟩ rfl rfl⟩

set_option maxRecDepth 100000 in
/-- Claim C4 (counterexample): the zero-example prompt contains the literal
series substring, but it contains no "Trend:" label anywhere — in
particular it does not end with "Trend:" followed by a continuation point;
it ends with the instruction words " in one sentence". -/
theorem c4_counterexample :
    strContains zeroShotTrendPrompt "132, 329, 583, 743, 966, 1123, 1298" = true ∧
    strContains zeroShotTrendPrompt "Trend:" = false ∧
    strEndsWith zeroShotTrendPrompt "Trend:" = false ∧
    strEndsWith zeroShotTrendPrompt "Trend: \n" = false := by decide

set_option maxRecDepth 100000 in
/-- Claim C4 (amended): the prompt rendered with zero examples for series
132, 329, 583, 743, 966, 1123, 1298 contains that literal series substring
inlined in the instruction sentence, and ends with " in one sentence"; no
"Trend:" label appears. -/
theorem c4_zero_example_prompt_shape :
    strContains zeroShotTrendPrompt "132, 329, 583, 743, 966, 1123, 1298" = true ∧
    strEndsWith zeroShotTrendPrompt " in one sentence" = true := by decide

/-- Claim C5: prompt rendering is deterministic — for equal tuples of
(instruction, labeling mode, ordered example pairs, target series), the
Prompt Builder produces byte-identical output strings across invocations. -/
theorem c5_prompt_rendering_deterministic
    (i1 i2 : String) (m1 m2 : LabelingMode)
    (e1 e2 : List ExamplePair) (t1 t2 : List Nat)
    (hi : i1 = i2) (hm : m1 = m2) (he : e1 = e2) (ht : t1 = t2) :
    (buildPrompt i1 m1 e1 t1).data = (buildPrompt i2 m2 e2 t2).data := by
  subst hi
  subst hm
  subst he
  subst ht
  rfl

/-- Witness for C5 at the notebook's day-labeled invocation. -/
theorem c5_witness :
    (buildPrompt "Summarize the trend of the daily list of numbers in one sentence"
        LabelingMode.dayLetter dayExamplePairs [55, 54, 57, 5643, 56, 55, 54]).data =
    (buildPrompt "Summarize the trend of the daily list of numbers in one sentence"
        LabelingMode.dayLetter dayExamplePairs [55, 54, 57, 5643, 56, 55, 54]).data :=
  c5_prompt_rendering_deterministic _ _ _ _ _ _ _ _ rfl rfl rfl rfl

set_option maxRecDepth 100000 in
/-- Claim C6: in the day-labeled prompt for target series
55, 54, 57, 5643, 56, 55, 54, the day letters M, T, W, T, F, S, S each
appear immediately before their respective number (separated only by ": "),
in order: the prompt contains, as one contiguous substring, exactly the
in-order interleaving of the day letters with the seven numbers. -/
theorem c6_day_letters_immediately_before_numbers :
    renderSeries LabelingMode.dayLetter [55, 54, 57, 5643, 56, 55, 54] =
      "M: 55, T: 54, W: 57, T: 5643, F: 56, S: 55, S: 54" ∧
    strContains dayLabeledPromptA
      (renderSeries LabelingMode.dayLetter [55, 54, 57, 5643, 56, 55, 54]) = true := by
  decide

/-- Claim C9: all eight completion requests use engine "text-davinci-002"
and temperature 0; the initial smoke-test request has max_tokens 6 and
every trend-summarization request has max_tokens 36. -/
theorem c9_request_parameters :
    notebookRequests.all
      (fun r => r.engine == "text-davinci-002" && r.temperature == 0) = true ∧
    notebookRequests.map CompletionRequest.max_tokens =
      [6, 36, 36, 36, 36, 36, 36, 36] ∧
    (notebookRequests.map CompletionRequest.prompt).head? = some smokeTestPrompt := by
  decide

set_option maxRecDepth 100000 in
/-- Claim C10: every few-shot prompt the notebook builds ends with the exact
suffix "Trend: " followed by a single newline (so the continuation point
carries a trailing space before the final newline). -/
theorem c10_few_shot_prompts_end_with_trend_label :
    fewShotPrompts.all (fun p => strEndsWith p "Trend: \n") = true ∧
    fewShotPrompts.all (fun p => !(strEndsWith p "\n\n")) = true := by decide
